import Mathlib

/-!
Shallow embedding of the `dumber` webkit C helpers:
`src/pkg/webkit/log_capture.h`, `src/pkg/webkit/thread_helpers.c`,
`src/pkg/webkit/webview_callbacks.h`.

The stdout/stderr capture subsystem is modelled as an explicit state machine
(`CaptureState`) over the static globals of `log_capture.h`; file descriptors
1 and 2 are modelled by the abstract destination (`Dest`) they currently point
to, and the pipe's kernel buffer by a byte list.  The GLib logging facility is
external to the repository; its handler-dispatch behaviour is modelled at the
interface boundary the spec describes.
-/

namespace Dumber

/-- An output destination: either an external (terminal/log) destination that
existed before capture, or the write end of a capture channel with a given
identity. -/
inductive Dest where
  | ext (n : Nat)
  | chanW (id : Nat)
deriving DecidableEq, Repr

/-- The state held in the static globals of `log_capture.h`:
`webkit_log_pipe` (identity `pipeId`, open flag `pipeOpen`, kernel buffer
`pipeBuf`), `webkit_original_stdout` / `webkit_original_stderr` (the saved
duplicated destinations), `webkit_capture_enabled`, plus the current
destinations of file descriptors 1 and 2 and bookkeeping for fresh channel
identities and diagnostics (`g_warning` / fatal-error counts). -/
structure CaptureState where
  enabled : Bool
  pipeId : Nat
  pipeOpen : Bool
  pipeBuf : List Nat
  savedOut : Option Dest
  savedErr : Option Dest
  out1 : Dest
  out2 : Dest
  nextId : Nat
  warnings : Nat
  fatals : Nat
deriving DecidableEq, Repr

/-- Process-start state: statics are zero-initialized, `webkit_capture_enabled`
is `FALSE`, no handles saved, fds 1 and 2 point at their original external
destinations. -/
def initialCaptureState : CaptureState :=
  { enabled := false, pipeId := 0, pipeOpen := false, pipeBuf := [],
    savedOut := none, savedErr := none, out1 := .ext 0, out2 := .ext 1,
    nextId := 0, warnings := 0, fatals := 0 }

/-- `webkit_init_log_capture` (log_capture.h:16-30).  Early-returns when
already enabled; on `pipe()` success (the `pipeOk` parameter) creates a fresh
channel, duplicates the current fd-1/fd-2 destinations into the saved handles
and sets `enabled`; on failure emits `g_warning` and changes nothing else. -/
def webkit_init_log_capture (s : CaptureState) (pipeOk : Bool) : CaptureState :=
  if s.enabled then s
  else if pipeOk then
    { s with pipeId := s.nextId, pipeOpen := true, pipeBuf := [],
             savedOut := some s.out1, savedErr := some s.out2,
             enabled := true, nextId := s.nextId + 1 }
  else
    { s with warnings := s.warnings + 1 }

/-- `webkit_start_log_capture` (log_capture.h:33-39).  No-op unless enabled;
otherwise `dup2`s the pipe's write end onto fds 1 and 2. -/
def webkit_start_log_capture (s : CaptureState) : CaptureState :=
  if !s.enabled then s
  else { s with out1 := .chanW s.pipeId, out2 := .chanW s.pipeId }

/-- `webkit_stop_log_capture` (log_capture.h:42-58).  No-op unless enabled;
otherwise restores fds 1 and 2 from the saved handles (releasing them via
`fclose`; the dangling static pointer is modelled as `none` since it is never
dereferenced before reassignment), closes both pipe ends (discarding buffered
bytes) and clears `enabled`. -/
def webkit_stop_log_capture (s : CaptureState) : CaptureState :=
  if !s.enabled then s
  else
    let s1 := match s.savedOut with
      | some d => { s with out1 := d, savedOut := none }
      | none => s
    let s2 := match s1.savedErr with
      | some d => { s1 with out2 := d, savedErr := none }
      | none => s1
    { s2 with pipeOpen := false, pipeBuf := [], enabled := false }

/-- `webkit_read_captured_log` (log_capture.h:61-83), for `buffer_size ≥ 1`
(the C `int` arithmetic `buffer_size - 1` is the truncated subtraction here).
Returns `(result, buffer after the call, state after the call)`.  `select`
with a zero timeout reports readiness exactly when the pipe buffer is
non-empty; `read` then transfers `min available (buffer_size - 1)` bytes, and
only when that count is positive is the buffer written and NUL-terminated. -/
def webkit_read_captured_log (s : CaptureState) (buffer : List Nat)
    (buffer_size : Nat) : Nat × List Nat × CaptureState :=
  if !s.enabled then (0, buffer, s)
  else if s.pipeBuf.isEmpty then (0, buffer, s)
  else
    let n := min s.pipeBuf.length (buffer_size - 1)
    if 0 < n then
      (n, s.pipeBuf.take n ++ [0] ++ buffer.drop (n + 1),
        { s with pipeBuf := s.pipeBuf.drop n })
    else (0, buffer, s)

/-- A `write` to fd 1 by the process or a native library: bytes land in the
pipe's kernel buffer when fd 1 points at the open capture channel's write end,
and go to the external destination (uncaptured) otherwise. -/
def writeOut (s : CaptureState) (bytes : List Nat) : CaptureState :=
  match s.out1 with
  | .chanW id =>
      if s.pipeOpen && id == s.pipeId then { s with pipeBuf := s.pipeBuf ++ bytes }
      else s
  | .ext _ => s

/-- A redirection-phase operation: `webkit_start_log_capture` or
`webkit_stop_log_capture`. -/
inductive RedirOp where
  | start
  | stop
deriving DecidableEq, Repr

def applyRedirOp (op : RedirOp) (s : CaptureState) : CaptureState :=
  match op with
  | .start => webkit_start_log_capture s
  | .stop => webkit_stop_log_capture s

def applyRedirOps (ops : List RedirOp) (s : CaptureState) : CaptureState :=
  ops.foldl (fun t op => applyRedirOp op t) s

end Dumber

namespace Dumber

/-! GLib logging constants, with the numeric values of the GLib headers:
the two flag bits and the mask of all severity-level bits (a 32-bit
`GLogLevelFlags`; `G_LOG_LEVEL_MASK` is the complement of the two flag bits). -/

def G_LOG_FLAG_RECURSION : Nat := 1
def G_LOG_FLAG_FATAL : Nat := 2
def G_LOG_LEVEL_MASK : Nat := 2 ^ 32 - 4

/-- The mask `log_capture.h` passes to every `g_log_set_handler` call:
`G_LOG_LEVEL_MASK | G_LOG_FLAG_FATAL | G_LOG_FLAG_RECURSION`. -/
def captureMask : Nat := G_LOG_LEVEL_MASK ||| G_LOG_FLAG_FATAL ||| G_LOG_FLAG_RECURSION

/-- A structured log message: `{domain, severity level, text}`.  The domain is
optional (`none` is the unnamed/default domain, a NULL `log_domain`). -/
structure LogMessage where
  domain : Option String
  level : Nat
  text : String
deriving DecidableEq, Repr

/-- `webkit_glib_log_handler` (log_capture.h:86-93): forwards the received
message to the Go sink `goWebKitLogHandler` unchanged.  Its observable effect
is the list of sink calls it makes. -/
def webkit_glib_log_handler (log_domain : Option String) (log_level : Nat)
    (message : String) : List LogMessage :=
  [⟨log_domain, log_level, message⟩]

/-- One `g_log_set_handler` registration: the domain it is installed for
(`none` for the NULL/default domain) and its interception mask. -/
structure HandlerReg where
  domain : Option String
  mask : Nat
deriving DecidableEq, Repr

/-- `webkit_setup_glib_log_handlers` (log_capture.h:96-106): the four
registrations it performs, in order. -/
def webkit_setup_glib_log_handlers : List HandlerReg :=
  [⟨some "WebKit", captureMask⟩, ⟨some "Gtk", captureMask⟩,
   ⟨some "GLib", captureMask⟩, ⟨none, captureMask⟩]

/-- Modelled from the spec: the dispatch step of the external GLib logging
facility (`g_log`), which is not part of this repository.  A message is handed
to the registered handler of its domain when that handler's mask covers every
bit of the message's level (flags included); the handler here is
`webkit_glib_log_handler`, whose sink calls form the first component.  With no
matching handler the default handler runs instead (no sink call) and — per the
spec's edge-case description — a fatal-flagged message then terminates the
process (second component `true`). -/
def g_log_dispatch (regs : List HandlerReg) (log_domain : Option String)
    (log_level : Nat) (message : String) : List LogMessage × Bool :=
  match regs.find? (fun r => r.domain == log_domain && (log_level &&& r.mask) == log_level) with
  | some _ => (webkit_glib_log_handler log_domain log_level message, false)
  | none => ([], log_level &&& G_LOG_FLAG_FATAL != 0)

end Dumber

namespace Dumber

/-! Thread identity (`thread_helpers.c`).  A thread identity is a `Nat`;
`pthread_equal` is identity comparison. -/

/-- `store_main_thread_id` (thread_helpers.c:6-8): records the calling
thread's identity into the static `main_thread_id`; the result is the new
value of that static. -/
def store_main_thread_id (caller : Nat) : Nat := caller

def pthread_equal (a b : Nat) : Bool := a == b

/-- `is_main_thread` (thread_helpers.c:10-12): compares the calling thread's
identity with the stored `main_thread_id`. -/
def is_main_thread (main_thread_id : Nat) (caller : Nat) : Bool :=
  pthread_equal caller main_thread_id

end Dumber

namespace Dumber

/-- A completion of a URI-scheme request: either
`webkit_uri_scheme_request_finish` with a byte stream of a given length and a
MIME type, or `webkit_uri_scheme_request_finish_error` with an error code and
message. -/
inductive SchemeCompletion where
  | finish (data : List Nat) (length : Nat) (mime : String)
  | finishError (code : Nat) (message : String)
deriving DecidableEq, Repr

/-- `on_uri_scheme` (webview_callbacks.h:48-64), as a function of the
resolver's result (`goResolveURIScheme` returns a buffer or NULL, a length,
and a MIME string or NULL).  Its observable effect is the list of completion
calls it makes on the request. -/
def on_uri_scheme (buf : Option (List Nat)) (n : Nat) (mime : Option String) :
    List SchemeCompletion :=
  match buf, mime with
  | some b, some m =>
      if 0 < n then [.finish b n m]
      else [.finishError 404 "Not found"]
  | some _, none => [.finishError 404 "Not found"]
  | none, _ => [.finishError 404 "Not found"]

/-- Invariant of a capture session: after a successful `initialize` from the
process-start state, every reachable state is either still enabled — with the
channel open and the original destinations `o1`, `o2` saved — or disabled with
the handles released and fds 1 and 2 restored to `o1`, `o2`. -/
def SessionInv (o1 o2 : Dest) (s : CaptureState) : Prop :=
  (s.enabled = true ∧ s.pipeOpen = true ∧
    s.savedOut = some o1 ∧ s.savedErr = some o2) ∨
  (s.enabled = false ∧ s.savedOut = none ∧ s.savedErr = none ∧
    s.out1 = o1 ∧ s.out2 = o2)

/-- Example state for witnesses: capture initialized and started, with the
bytes of "hello\n" sitting in the pipe. -/
def exDrainState : CaptureState :=
  { enabled := true, pipeId := 0, pipeOpen := true,
    pipeBuf := [104, 101, 108, 108, 111, 10],
    savedOut := some (.ext 0), savedErr := some (.ext 1),
    out1 := .chanW 0, out2 := .chanW 0, nextId := 1, warnings := 0, fatals := 0 }

end Dumber

namespace Dumber

theorem start_noop_of_disabled {s : CaptureState} (h : s.enabled = false) :
    webkit_start_log_capture s = s := by
  simp [webkit_start_log_capture, h]

theorem stop_noop_of_disabled {s : CaptureState} (h : s.enabled = false) :
    webkit_stop_log_capture s = s := by
  simp [webkit_stop_log_capture, h]

theorem read_noop_of_disabled {s : CaptureState} (h : s.enabled = false)
    (buffer : List Nat) (buffer_size : Nat) :
    webkit_read_captured_log s buffer buffer_size = (0, buffer, s) := by
  simp [webkit_read_captured_log, h]

theorem start_preserves_enabled (s : CaptureState) :
    (webkit_start_log_capture s).enabled = s.enabled := by
  simp only [webkit_start_log_capture]
  split <;> rfl

theorem read_preserves_enabled (s : CaptureState) (buffer : List Nat)
    (buffer_size : Nat) :
    (webkit_read_captured_log s buffer buffer_size).2.2.enabled = s.enabled := by
  simp only [webkit_read_captured_log]
  split
  · rfl
  · split
    · rfl
    · split <;> rfl

theorem stop_clears_enabled (s : CaptureState) :
    (webkit_stop_log_capture s).enabled = false := by
  simp only [webkit_stop_log_capture]
  split
  · rename_i h
    simpa using h
  · rfl

/-- C6: while capture is not enabled, `webkit_start_log_capture` and
`webkit_stop_log_capture` return with the state unchanged, and
`webkit_read_captured_log` returns 0 leaving both the buffer and the state
untouched (all three are total functions, so none can crash). -/
theorem disabled_ops_noop (s : CaptureState) (h : s.enabled = false) :
    webkit_start_log_capture s = s ∧ webkit_stop_log_capture s = s ∧
    ∀ buffer buffer_size,
      webkit_read_captured_log s buffer buffer_size = (0, buffer, s) :=
  ⟨start_noop_of_disabled h, stop_noop_of_disabled h,
    fun buffer buffer_size => read_noop_of_disabled h buffer buffer_size⟩

/-- Witness for C6 at the process-start state. -/
theorem disabled_ops_noop_witness :
    webkit_start_log_capture initialCaptureState = initialCaptureState ∧
    webkit_stop_log_capture initialCaptureState = initialCaptureState ∧
    webkit_read_captured_log initialCaptureState [0, 0, 0] 3 =
      (0, [0, 0, 0], initialCaptureState) := by
  have h := disabled_ops_noop initialCaptureState rfl
  exact ⟨h.1, h.2.1, h.2.2 [0, 0, 0] 3⟩

/-- C7: `webkit_init_log_capture` is idempotent — a second call while
`enabled` is already true returns the state unchanged (channel, saved handles
and flag exactly as they were), so the state after two consecutive successful
initializations equals the state after one. -/
theorem init_idempotent (s : CaptureState) (ok ok2 : Bool) :
    (s.enabled = true → webkit_init_log_capture s ok = s) ∧
    webkit_init_log_capture (webkit_init_log_capture s true) ok2 =
      webkit_init_log_capture s true := by
  constructor
  · intro h
    simp [webkit_init_log_capture, h]
  · by_cases h : s.enabled = true
    · simp [webkit_init_log_capture, h]
    · simp only [Bool.not_eq_true] at h
      simp [webkit_init_log_capture, h]

/-- Witness for C7 at a concrete enabled state. -/
theorem init_idempotent_witness :
    webkit_init_log_capture exDrainState true = exDrainState ∧
    webkit_init_log_capture (webkit_init_log_capture initialCaptureState true) true =
      webkit_init_log_capture initialCaptureState true :=
  ⟨(init_idempotent exDrainState true true).1 rfl,
    (init_idempotent initialCaptureState true true).2⟩

/-- C9: once `store_main_thread_id` has recorded thread `O`, `is_main_thread`
answers true exactly on `O`: it is true for `O`, false for any other thread
`T`, and on any duplicate-free set of threads containing `O` exactly one
thread observes ownership. -/
theorem thread_owner_unique (O T : Nat) (threads : List Nat)
    (hne : T ≠ O) (hnd : threads.Nodup) (hmem : O ∈ threads) :
    is_main_thread (store_main_thread_id O) O = true ∧
    is_main_thread (store_main_thread_id O) T = false ∧
    (threads.filter (fun t => is_main_thread (store_main_thread_id O) t)).length = 1 := by
  refine ⟨by simp [is_main_thread, store_main_thread_id, pthread_equal], ?_, ?_⟩
  · simp [is_main_thread, store_main_thread_id, pthread_equal, hne]
  · have hfc : (threads.filter (fun t => is_main_thread (store_main_thread_id O) t)).length
        = threads.count O := by
      simp [is_main_thread, store_main_thread_id, pthread_equal, List.count,
        List.countP_eq_length_filter]
    rw [hfc]
    exact List.count_eq_one_of_mem hnd hmem

/-- Witness for C9: owner thread 5 among threads 3, 5, 7. -/
theorem thread_owner_unique_witness :
    is_main_thread (store_main_thread_id 5) 5 = true ∧
    is_main_thread (store_main_thread_id 5) 7 = false ∧
    (([3, 5, 7] : List Nat).filter
      (fun t => is_main_thread (store_main_thread_id 5) t)).length = 1 :=
  thread_owner_unique 5 7 [3, 5, 7] (by decide) (by decide) (by decide)

/-- C10: `on_uri_scheme` completes the request exactly once: with a non-null
buffer, positive length and non-null MIME type it finishes with exactly that
buffer, length and MIME type; with a null buffer, zero length or null MIME
type it finishes with the 404 "Not found" error — never both and never
neither. -/
theorem on_uri_scheme_completes_once (buf : Option (List Nat)) (n : Nat)
    (mime : Option String) :
    (on_uri_scheme buf n mime).length = 1 ∧
    (∀ b m, buf = some b → mime = some m → 0 < n →
      on_uri_scheme buf n mime = [.finish b n m]) ∧
    ((buf = none ∨ n = 0 ∨ mime = none) →
      on_uri_scheme buf n mime = [.finishError 404 "Not found"]) := by
  refine ⟨?_, ?_, ?_⟩
  · rcases buf with _ | b <;> rcases mime with _ | m <;>
      by_cases hn : 0 < n <;> simp [on_uri_scheme, hn]
  · rintro b m rfl rfl hn
    simp [on_uri_scheme, hn]
  · rintro (rfl | rfl | rfl)
    · rcases mime with _ | m <;> simp [on_uri_scheme]
    · rcases buf with _ | b <;> rcases mime with _ | m <;> simp [on_uri_scheme]
    · rcases buf with _ | b <;> simp [on_uri_scheme]

/-- Witness for C10: a successful resolution and a failed one. -/
theorem on_uri_scheme_completes_once_witness :
    on_uri_scheme (some [1, 2]) 2 (some "text/html") =
      [.finish [1, 2] 2 "text/html"] ∧
    on_uri_scheme none 5 (some "text/html") = [.finishError 404 "Not found"] :=
  ⟨(on_uri_scheme_completes_once (some [1, 2]) 2 (some "text/html")).2.1
      [1, 2] "text/html" rfl rfl (by decide),
    (on_uri_scheme_completes_once none 5 (some "text/html")).2.2 (Or.inl rfl)⟩

/-- C1: with capture enabled and `capacity ≥ 1`, `webkit_read_captured_log`
on a buffer of size `capacity` behaves as specified: when the channel has data
ready and the read transfers a positive count, it reads
`min available (capacity - 1)` bytes into the front of the buffer, writes a
NUL terminator immediately after the last byte read, leaves the rest of the
buffer untouched, and returns that count `n` with `1 ≤ n ≤ capacity - 1`;
when no data is ready, or the read yields nothing (`capacity = 1`), it
returns 0 and leaves the buffer unmodified. -/
theorem webkit_read_captured_log_spec (s : CaptureState) (buffer : List Nat)
    (capacity : Nat) (hen : s.enabled = true) (hcap : 1 ≤ capacity)
    (hbuf : buffer.length = capacity) :
    (s.pipeBuf ≠ [] → 0 < min s.pipeBuf.length (capacity - 1) →
      (webkit_read_captured_log s buffer capacity).1 =
          min s.pipeBuf.length (capacity - 1) ∧
        1 ≤ (webkit_read_captured_log s buffer capacity).1 ∧
        (webkit_read_captured_log s buffer capacity).1 ≤ capacity - 1 ∧
        (webkit_read_captured_log s buffer capacity).2.1 =
          s.pipeBuf.take (min s.pipeBuf.length (capacity - 1)) ++ [0] ++
            buffer.drop (min s.pipeBuf.length (capacity - 1) + 1)) ∧
    ((s.pipeBuf = [] ∨ min s.pipeBuf.length (capacity - 1) = 0) →
      (webkit_read_captured_log s buffer capacity).1 = 0 ∧
        (webkit_read_captured_log s buffer capacity).2.1 = buffer) := by
  constructor
  · intro hne hn
    have he : s.pipeBuf.isEmpty = false := by simp [List.isEmpty_iff, hne]
    refine ⟨?_, ?_, ?_, ?_⟩ <;>
      simp [webkit_read_captured_log, hen, he, hn, Nat.min_le_right]
    omega
  · intro h
    rcases h with h | h
    · simp [webkit_read_captured_log, hen, h]
    · simp [webkit_read_captured_log, hen, h]

/-- Witness for C1, the spec's own scenario: "hello\n" pending in the channel
and a 64-byte buffer; the call returns 6 and the buffer starts with the six
bytes of "hello\n" followed by a NUL. -/
theorem webkit_read_captured_log_spec_witness :
    (webkit_read_captured_log exDrainState (List.replicate 64 0) 64).1 = 6 ∧
    (webkit_read_captured_log exDrainState (List.replicate 64 0) 64).2.1 =
      [104, 101, 108, 108, 111, 10, 0] ++ List.replicate 57 0 := by
  have h := (webkit_read_captured_log_spec exDrainState (List.replicate 64 0) 64
      rfl (by decide) (by simp)).1 (by decide) (by decide)
  refine ⟨h.1.trans (by decide), h.2.2.2.trans ?_⟩
  decide

/-- C2's original lifecycle claim is false on the code: `enabled` does not
remain true across a stop-of-redirection call.  Concretely, after a successful
`webkit_init_log_capture` from the process-start state, a single
`webkit_stop_log_capture` (the only stop operation the code has) already
clears `enabled`. -/
theorem capture_enabled_cleared_by_stop :
    (webkit_stop_log_capture
      (webkit_init_log_capture initialCaptureState true)).enabled = false := by
  decide

/-- C2 (amended): `enabled` is false at process start, becomes true after a
successful `webkit_init_log_capture`, is unchanged by
`webkit_start_log_capture` and by `webkit_read_captured_log`, and becomes
false after `webkit_stop_log_capture` (the teardown), remaining false until a
subsequent successful initialization; while `enabled` is false, every capture
operation (start, stop, drain) is a no-op. -/
theorem capture_enabled_lifecycle :
    initialCaptureState.enabled = false ∧
    (∀ s : CaptureState, s.enabled = false →
      (webkit_init_log_capture s true).enabled = true) ∧
    (∀ s : CaptureState, (webkit_start_log_capture s).enabled = s.enabled) ∧
    (∀ (s : CaptureState) (buffer : List Nat) (buffer_size : Nat),
      (webkit_read_captured_log s buffer buffer_size).2.2.enabled = s.enabled) ∧
    (∀ s : CaptureState, (webkit_stop_log_capture s).enabled = false) ∧
    (∀ s : CaptureState, s.enabled = false →
      webkit_start_log_capture s = s ∧ webkit_stop_log_capture s = s ∧
      ∀ buffer buffer_size,
        webkit_read_captured_log s buffer buffer_size = (0, buffer, s)) := by
  refine ⟨rfl, ?_, start_preserves_enabled, read_preserves_enabled,
    stop_clears_enabled, ?_⟩
  · intro s h
    simp [webkit_init_log_capture, h]
  · intro s h
    exact ⟨start_noop_of_disabled h, stop_noop_of_disabled h,
      fun buffer buffer_size => read_noop_of_disabled h buffer buffer_size⟩

/-- Witness for C2 (amended) at concrete states. -/
theorem capture_enabled_lifecycle_witness :
    initialCaptureState.enabled = false ∧
    (webkit_init_log_capture initialCaptureState true).enabled = true ∧
    (webkit_start_log_capture exDrainState).enabled = exDrainState.enabled ∧
    (webkit_stop_log_capture exDrainState).enabled = false ∧
    webkit_stop_log_capture initialCaptureState = initialCaptureState :=
  ⟨capture_enabled_lifecycle.1,
    capture_enabled_lifecycle.2.1 initialCaptureState rfl,
    capture_enabled_lifecycle.2.2.1 exDrainState,
    capture_enabled_lifecycle.2.2.2.2.1 exDrainState,
    (capture_enabled_lifecycle.2.2.2.2.2 initialCaptureState rfl).2.1⟩

/-- C8: when `pipe()` fails, `webkit_init_log_capture` leaves `enabled`
false, saves no output handles, emits exactly one warning and no fatal error,
and every subsequent capture operation on the resulting state is a no-op
(start and stop return the state unchanged, drain returns 0 and leaves the
buffer untouched). -/
theorem failed_init_degrades (s : CaptureState) (h : s.enabled = false) :
    (webkit_init_log_capture s false).enabled = false ∧
    (webkit_init_log_capture s false).savedOut = s.savedOut ∧
    (webkit_init_log_capture s false).savedErr = s.savedErr ∧
    (webkit_init_log_capture s false).warnings = s.warnings + 1 ∧
    (webkit_init_log_capture s false).fatals = s.fatals ∧
    webkit_start_log_capture (webkit_init_log_capture s false) =
      webkit_init_log_capture s false ∧
    webkit_stop_log_capture (webkit_init_log_capture s false) =
      webkit_init_log_capture s false ∧
    ∀ buffer buffer_size,
      webkit_read_captured_log (webkit_init_log_capture s false) buffer buffer_size =
        (0, buffer, webkit_init_log_capture s false) := by
  have ht : (webkit_init_log_capture s false).enabled = false := by
    simp [webkit_init_log_capture, h]
  refine ⟨ht, ?_, ?_, ?_, ?_, start_noop_of_disabled ht, stop_noop_of_disabled ht,
    fun buffer buffer_size => read_noop_of_disabled ht buffer buffer_size⟩ <;>
    simp [webkit_init_log_capture, h]

/-- Witness for C8: a failed initialization at process start. -/
theorem failed_init_degrades_witness :
    (webkit_init_log_capture initialCaptureState false).enabled = false ∧
    (webkit_init_log_capture initialCaptureState false).savedOut = none ∧
    (webkit_init_log_capture initialCaptureState false).warnings = 1 ∧
    (webkit_init_log_capture initialCaptureState false).fatals = 0 ∧
    webkit_read_captured_log (webkit_init_log_capture initialCaptureState false) [0] 1 =
      (0, [0], webkit_init_log_capture initialCaptureState false) := by
  have h := failed_init_degrades initialCaptureState rfl
  exact ⟨h.1, h.2.1, h.2.2.2.1, h.2.2.2.2.1, h.2.2.2.2.2.2.2 [0] 1⟩

theorem captureMask_eq : captureMask = 2 ^ 32 - 1 := by decide

/-- C3: after `webkit_setup_glib_log_handlers` has run, a message emitted on
any of the four registered domains (the three named ones and the
NULL/default domain) with a severity level in the 32-bit flag range is handed
to `webkit_glib_log_handler`, which makes exactly one sink call carrying
exactly that domain, that severity level (passed through unreinterpreted) and
that text — no buffering, filtering or duplication. -/
theorem glib_handler_forwards_exactly_once (d : Option String) (level : Nat)
    (text : String)
    (hd : d = some "WebKit" ∨ d = some "Gtk" ∨ d = some "GLib" ∨ d = none)
    (_hpos : 0 < level) (hlt : level < 2 ^ 32) :
    (g_log_dispatch webkit_setup_glib_log_handlers d level text).1 =
      [⟨d, level, text⟩] := by
  have hmask : ((level &&& captureMask) == level) = true := by
    rw [captureMask_eq]
    simp [Nat.and_pow_two_sub_one_of_lt_two_pow hlt]
  rcases hd with rfl | rfl | rfl | rfl <;>
    simp [g_log_dispatch, webkit_setup_glib_log_handlers, webkit_glib_log_handler,
      List.find?, hmask]

/-- Witness for C3: a critical-level (8) message on the "WebKit" domain. -/
theorem glib_handler_forwards_exactly_once_witness :
    (g_log_dispatch webkit_setup_glib_log_handlers (some "WebKit") 8 "boom").1 =
      [⟨some "WebKit", 8, "boom"⟩] :=
  glib_handler_forwards_exactly_once (some "WebKit") 8 "boom" (Or.inl rfl)
    (by decide) (by decide)

/-- C4: every one of the four registrations `webkit_setup_glib_log_handlers`
performs (the three named domains plus the NULL/default domain) uses a mask
containing the fatal flag, the recursion-suppression flag and every severity
bit of `G_LOG_LEVEL_MASK`; consequently a fatal-flagged message on a
registered domain is dispatched to the sink with no process termination. -/
theorem glib_handlers_mask_includes_fatal :
    (∀ r ∈ webkit_setup_glib_log_handlers,
      r.mask &&& G_LOG_FLAG_FATAL = G_LOG_FLAG_FATAL ∧
      r.mask &&& G_LOG_FLAG_RECURSION = G_LOG_FLAG_RECURSION ∧
      r.mask &&& G_LOG_LEVEL_MASK = G_LOG_LEVEL_MASK) ∧
    webkit_setup_glib_log_handlers.map HandlerReg.domain =
      [some "WebKit", some "Gtk", some "GLib", none] ∧
    ∀ (d : Option String) (level : Nat) (text : String),
      (d = some "WebKit" ∨ d = some "Gtk" ∨ d = some "GLib" ∨ d = none) →
      level < 2 ^ 32 → level &&& G_LOG_FLAG_FATAL ≠ 0 →
      g_log_dispatch webkit_setup_glib_log_handlers d level text =
        ([⟨d, level, text⟩], false) := by
  refine ⟨by decide, by decide, ?_⟩
  intro d level text hd hlt hfatal
  have hmask : ((level &&& captureMask) == level) = true := by
    rw [captureMask_eq]
    simp [Nat.and_pow_two_sub_one_of_lt_two_pow hlt]
  rcases hd with rfl | rfl | rfl | rfl <;>
    simp [g_log_dispatch, webkit_setup_glib_log_handlers, webkit_glib_log_handler,
      List.find?, hmask]

/-- Witness for C4: a fatal-flagged error message (level
`G_LOG_LEVEL_ERROR ||| G_LOG_FLAG_FATAL = 6`) on the "GLib" domain reaches
the sink and does not terminate the process. -/
theorem glib_handlers_mask_includes_fatal_witness :
    g_log_dispatch webkit_setup_glib_log_handlers (some "GLib") 6 "fatal" =
      ([⟨some "GLib", 6, "fatal"⟩], false) :=
  glib_handlers_mask_includes_fatal.2.2 (some "GLib") 6 "fatal"
    (Or.inr (Or.inr (Or.inl rfl))) (by decide) (by decide)

theorem sessionInv_start {o1 o2 : Dest} {s : CaptureState}
    (h : SessionInv o1 o2 s) : SessionInv o1 o2 (webkit_start_log_capture s) := by
  rcases h with ⟨he, hp, ho, hr⟩ | ⟨he, ho, hr, h1, h2⟩
  · exact Or.inl ⟨by simp [webkit_start_log_capture, he, hp, ho, hr],
      by simp [webkit_start_log_capture, he, hp],
      by simp [webkit_start_log_capture, he, ho],
      by simp [webkit_start_log_capture, he, hr]⟩
  · rw [start_noop_of_disabled he]
    exact Or.inr ⟨he, ho, hr, h1, h2⟩

theorem sessionInv_stop {o1 o2 : Dest} {s : CaptureState}
    (h : SessionInv o1 o2 s) : SessionInv o1 o2 (webkit_stop_log_capture s) := by
  rcases h with ⟨he, hp, ho, hr⟩ | ⟨he, ho, hr, h1, h2⟩
  · refine Or.inr ⟨stop_clears_enabled s, ?_, ?_, ?_, ?_⟩ <;>
      simp [webkit_stop_log_capture, he, ho, hr]
  · rw [stop_noop_of_disabled he]
    exact Or.inr ⟨he, ho, hr, h1, h2⟩

theorem sessionInv_redirOps {o1 o2 : Dest} (ops : List RedirOp)
    {s : CaptureState} (h : SessionInv o1 o2 s) :
    SessionInv o1 o2 (applyRedirOps ops s) := by
  induction ops generalizing s with
  | nil => exact h
  | cons op rest ih =>
      rcases op with _ | _
      · exact ih (sessionInv_start h)
      · exact ih (sessionInv_stop h)

theorem stop_of_sessionInv {o1 o2 : Dest} {s : CaptureState}
    (h : SessionInv o1 o2 s) :
    (webkit_stop_log_capture s).enabled = false ∧
    (webkit_stop_log_capture s).out1 = o1 ∧
    (webkit_stop_log_capture s).out2 = o2 := by
  rcases h with ⟨he, hp, ho, hr⟩ | ⟨he, ho, hr, h1, h2⟩
  · exact ⟨stop_clears_enabled s,
      by simp [webkit_stop_log_capture, he, ho, hr],
      by simp [webkit_stop_log_capture, he, ho, hr]⟩
  · rw [stop_noop_of_disabled he]
    exact ⟨he, h1, h2⟩

theorem capture_cycle (t : CaptureState) (msg buffer : List Nat)
    (capacity : Nat) (ht : t.enabled = true) (hp : t.pipeOpen = true)
    (hb : t.pipeBuf = []) (hmsg : msg ≠ []) (hcap : msg.length + 1 ≤ capacity) :
    (webkit_read_captured_log (writeOut (webkit_start_log_capture t) msg)
        buffer capacity).1 = msg.length ∧
    ((webkit_read_captured_log (writeOut (webkit_start_log_capture t) msg)
        buffer capacity).2.1).take msg.length = msg := by
  have hstart : webkit_start_log_capture t =
      { t with out1 := .chanW t.pipeId, out2 := .chanW t.pipeId } := by
    simp [webkit_start_log_capture, ht]
  have hwrite : writeOut (webkit_start_log_capture t) msg =
      { t with out1 := .chanW t.pipeId, out2 := .chanW t.pipeId,
               pipeBuf := msg } := by
    rw [hstart]
    simp [writeOut, hp, hb]
  rw [hwrite]
  have hmin : min msg.length (capacity - 1) = msg.length :=
    Nat.min_eq_left (by omega)
  have hemp : msg.isEmpty = false := by simp [List.isEmpty_iff, hmsg]
  have hpos : 0 < msg.length := List.length_pos.mpr hmsg
  constructor
  · simp [webkit_read_captured_log, ht, hemp, hmin, hpos]
  · simp only [webkit_read_captured_log, ht, Bool.not_true, Bool.false_eq_true,
      if_false, hemp, hmin, hpos, if_pos, List.take_take]
    rw [List.take_length, List.append_assoc]
    exact List.take_left msg _

/-- C5: for every sequence of `webkit_start_log_capture` /
`webkit_stop_log_capture` calls after a successful initialization, a
`webkit_stop_log_capture` followed by a fresh successful
`webkit_init_log_capture` restores full capture capability: the new state has
an open channel, the current (restored, original) stdout/stderr destinations
saved — the same saved handles as after the first initialization — and
`enabled` true, and a subsequent start/write/drain cycle captures the written
bytes again. -/
theorem stop_then_init_round_trip (ops : List RedirOp) :
    (webkit_init_log_capture
        (webkit_stop_log_capture
          (applyRedirOps ops (webkit_init_log_capture initialCaptureState true)))
        true).enabled = true ∧
    (webkit_init_log_capture
        (webkit_stop_log_capture
          (applyRedirOps ops (webkit_init_log_capture initialCaptureState true)))
        true).pipeOpen = true ∧
    (webkit_init_log_capture
        (webkit_stop_log_capture
          (applyRedirOps ops (webkit_init_log_capture initialCaptureState true)))
        true).savedOut =
      (webkit_init_log_capture initialCaptureState true).savedOut ∧
    (webkit_init_log_capture
        (webkit_stop_log_capture
          (applyRedirOps ops (webkit_init_log_capture initialCaptureState true)))
        true).savedErr =
      (webkit_init_log_capture initialCaptureState true).savedErr ∧
    ∀ msg buffer capacity, msg ≠ [] → msg.length + 1 ≤ capacity →
      (webkit_read_captured_log
          (writeOut
            (webkit_start_log_capture
              (webkit_init_log_capture
                (webkit_stop_log_capture
                  (applyRedirOps ops
                    (webkit_init_log_capture initialCaptureState true)))
                true))
            msg)
          buffer capacity).1 = msg.length ∧
      ((webkit_read_captured_log
          (writeOut
            (webkit_start_log_capture
              (webkit_init_log_capture
                (webkit_stop_log_capture
                  (applyRedirOps ops
                    (webkit_init_log_capture initialCaptureState true)))
                true))
            msg)
          buffer capacity).2.1).take msg.length = msg := by
  have hinv : SessionInv (Dest.ext 0) (Dest.ext 1)
      (applyRedirOps ops (webkit_init_log_capture initialCaptureState true)) := by
    refine sessionInv_redirOps ops (Or.inl ?_)
    refine ⟨?_, ?_, ?_, ?_⟩ <;> rfl
  obtain ⟨hse, hso1, hso2⟩ := stop_of_sessionInv hinv
  set s2 := webkit_stop_log_capture
    (applyRedirOps ops (webkit_init_log_capture initialCaptureState true)) with hs2
  have hinit : webkit_init_log_capture s2 true =
      { s2 with pipeId := s2.nextId, pipeOpen := true, pipeBuf := [],
                savedOut := some s2.out1, savedErr := some s2.out2,
                enabled := true, nextId := s2.nextId + 1 } := by
    simp [webkit_init_log_capture, hse]
  refine ⟨?_, ?_, ?_, ?_, ?_⟩
  · rw [hinit]
  · rw [hinit]
  · rw [hinit]
    simp [hso1, webkit_init_log_capture, initialCaptureState]
  · rw [hinit]
    simp [hso2, webkit_init_log_capture, initialCaptureState]
  · intro msg buffer capacity hmsg hcap
    exact capture_cycle _ msg buffer capacity (by rw [hinit]) (by rw [hinit])
      (by rw [hinit]) hmsg hcap

/-- Witness for C5: the session start → stop → start, then stop and
re-initialize; writing "hello\n" and draining into a 64-byte buffer returns 6
and recovers the bytes. -/
theorem stop_then_init_round_trip_witness :
    (webkit_read_captured_log
        (writeOut
          (webkit_start_log_capture
            (webkit_init_log_capture
              (webkit_stop_log_capture
                (applyRedirOps [.start, .stop, .start]
                  (webkit_init_log_capture initialCaptureState true)))
              true))
          [104, 101, 108, 108, 111, 10])
        (List.replicate 64 0) 64).1 = 6 :=
  ((stop_then_init_round_trip [.start, .stop, .start]).2.2.2.2
    [104, 101, 108, 108, 111, 10] (List.replicate 64 0) 64
    (by decide) (by decide)).1

end Dumber
